import Mathlib

/-!
Shallow embedding of `src/services/update-manager.js` (class UpdateManager).

Pure algorithms (compareVersions, registry read-modify-write) are translated
directly; effectful methods (updateMod, updateMultipleMods, checkForUpdates)
are translated into explicit state passing over a `World` record, with the
outcome of each fallible filesystem / network sub-step supplied by an
`Outcomes` record (`none` = the awaited operation succeeded, `some e` = it
rejected with message `e`).  Emitted events and the rollback attempt are
recorded in an explicit trace.
-/

/-! ## Version comparison (`compareVersions`, lines 187-215)

JS `parseInt(part)` (radix argument omitted) skips leading whitespace, reads
an optional sign, detects a `0x`/`0X` hex prefix, then consumes the longest
prefix of digits of the radix; it returns NaN only when no digit was
consumed.  A token therefore becomes a number whenever it merely *starts*
with digits ("2beta" parses as 2). -/

inductive Tok where
  | num (n : Int)
  | str (s : String)
deriving Repr, DecidableEq

def isJsSpace (c : Char) : Bool :=
  c == ' ' || c == '\t' || c == '\n' || c == '\r' || c == '\x0b' || c == '\x0c'

def digitVal (c : Char) : Option Nat :=
  if '0' ≤ c ∧ c ≤ '9' then some (c.toNat - '0'.toNat)
  else if 'a' ≤ c ∧ c ≤ 'f' then some (c.toNat - 'a'.toNat + 10)
  else if 'A' ≤ c ∧ c ≤ 'F' then some (c.toNat - 'A'.toNat + 10)
  else none

def takeDigits (radix : Nat) : List Char → List Nat
  | [] => []
  | c :: cs =>
    match digitVal c with
    | some v => if v < radix then v :: takeDigits radix cs else []
    | none => []

def evalDigits (radix : Nat) (ds : List Nat) : Nat :=
  ds.foldl (fun acc d => acc * radix + d) 0

def parseIntSigned (sign : Int) (cs : List Char) : Option Int :=
  let p := match cs with
    | '0' :: 'x' :: rest => (16, rest)
    | '0' :: 'X' :: rest => (16, rest)
    | _ => (10, cs)
  let ds := takeDigits p.1 p.2
  if ds.isEmpty then none else some (sign * (evalDigits p.1 ds : Int))

def parseIntJS (s : String) : Option Int :=
  match s.data.dropWhile isJsSpace with
  | '+' :: rest => parseIntSigned 1 rest
  | '-' :: rest => parseIntSigned (-1) rest
  | cs => parseIntSigned 1 cs

/-- `part => { const num = parseInt(part); return isNaN(num) ? part : num; }` -/
def parsePart (part : String) : Tok :=
  match parseIntJS part with
  | some n => Tok.num n
  | none => Tok.str part

/-- JS `String.prototype.split` on a character class: every separator
occurrence cuts, empty pieces are kept (`"1..2"` gives `["1","","2"]`,
`""` gives `[""]`). -/
def splitChars (p : Char → Bool) : List Char → List Char → List String
  | [], acc => [String.mk acc.reverse]
  | c :: cs, acc =>
    if p c then String.mk acc.reverse :: splitChars p cs [] else splitChars p cs (c :: acc)

def jsSplit (s : String) (p : Char → Bool) : List String :=
  splitChars p s.data []

/-- `v.split(/[.-]/).map(...)` -/
def parseVersion (v : String) : List Tok :=
  (jsSplit v (fun c => c == '.' || c == '-')).map parsePart

/-- `currentParts[i] || 0`: an out-of-range index yields `undefined` (falsy,
so `0`); an in-range empty-string token is falsy too and also becomes the
number `0`; every other token is kept. -/
def tokDefault : Option Tok → Tok
  | none => Tok.num 0
  | some (Tok.num n) => Tok.num n
  | some (Tok.str s) => if s = "" then Tok.num 0 else Tok.str s

/-- `String(x)` on a token (numbers render in decimal). -/
def tokToString : Tok → String
  | Tok.num n => toString n
  | Tok.str s => s

/-- JS `<` on strings: lexicographic, comparing code units numerically. -/
def ltChars : List Char → List Char → Bool
  | [], [] => false
  | [], _ :: _ => true
  | _ :: _, [] => false
  | a :: as, b :: bs =>
    if a.toNat < b.toNat then true
    else if b.toNat < a.toNat then false
    else ltChars as bs

def jsLt (a b : String) : Bool := ltChars a.data b.data

/-- One iteration of the comparison loop body (lines 203-211). -/
def cmpTok (a b : Tok) : Int :=
  match a, b with
  | Tok.num x, Tok.num y => if x < y then -1 else if y < x then 1 else 0
  | _, _ =>
    let sa := tokToString a
    let sb := tokToString b
    if jsLt sa sb then -1 else if jsLt sb sa then 1 else 0

/-- The `for` loop of lines 199-212: `i` is the current index, the second
argument counts the remaining iterations. -/
def cmpFrom (a b : List Tok) (i : Nat) : Nat → Int
  | 0 => 0
  | fuel + 1 =>
    let c := cmpTok (tokDefault a[i]?) (tokDefault b[i]?)
    if c = 0 then cmpFrom a b (i + 1) fuel else c

def compareVersions (current latest : String) : Int :=
  let currentParts := parseVersion current
  let latestParts := parseVersion latest
  cmpFrom currentParts latestParts 0 (max currentParts.length latestParts.length)

/-! Spec-side comparator for the refinement claim C7: the spec says a token
is interpreted as a number iff it is *fully* numeric, otherwise kept as a
string; missing tokens are numeric 0. -/

/-- Modelled from the spec: "each token is interpreted as a number if it is
fully numeric, otherwise kept as a string". -/
def specParsePart (part : String) : Tok :=
  if part ≠ "" ∧ part.data.all Char.isDigit
  then Tok.num (evalDigits 10 (part.data.map (fun c => c.toNat - '0'.toNat)))
  else Tok.str part

def specParseVersion (v : String) : List Tok :=
  (jsSplit v (fun c => c == '.' || c == '-')).map specParsePart

/-- Modelled from the spec: "treating a missing token as numeric 0". -/
def specTokDefault : Option Tok → Tok
  | none => Tok.num 0
  | some t => t

def specCmpFrom (a b : List Tok) (i : Nat) : Nat → Int
  | 0 => 0
  | fuel + 1 =>
    let c := cmpTok (specTokDefault a[i]?) (specTokDefault b[i]?)
    if c = 0 then specCmpFrom a b (i + 1) fuel else c

/-- Modelled from the spec: §4.1's comparison algorithm with the spec's
fully-numeric tokenisation. -/
def specCompareVersions (current latest : String) : Int :=
  let currentParts := specParseVersion current
  let latestParts := specParseVersion latest
  specCmpFrom currentParts latestParts 0 (max currentParts.length latestParts.length)

/-! ## Data model

Records mirror the JS objects flowing through UpdateManager.  `Option` marks
fields that may be `null`/`undefined` in JS. -/

structure DlFile where
  url : String
  filename : String
  primary : Bool
  size : Option Nat
deriving Repr, DecidableEq

structure CatalogVersion where
  id : String
  version_number : String
  files : List DlFile
  game_versions : List String
  loaders : List String
deriving Repr, DecidableEq

/-- A value of the `mod-registry.json` map (see lines 124-133 for the fields
written on update). -/
structure RegEntry where
  name : String
  version : String
  projectId : String
  fileName : String
  updatedAt : String
  versionId : String
  gameVersions : List String
  loaders : List String
deriving Repr, DecidableEq

/-- An installed mod as assembled by `getInstalledMods` / consumed by
`updateMod` (`latestVersion` is attached by `checkForUpdates`;
`lastModified` is omitted: no claim concerns it). -/
structure ModItem where
  fileName : String
  filePath : String
  name : String
  currentVersion : String
  projectId : String
  latestVersion : Option CatalogVersion
deriving Repr, DecidableEq

structure Profile where
  id : String
  path : String
  modsPath : String
  gameVersion : String
  loader : String
deriving Repr, DecidableEq

/-! ## The registry as an insertion-ordered string map

A JSON object read by `loadModRegistry`; JS property semantics: assignment
replaces the value in place if the key exists, else appends; `delete`
removes the key. -/

def getKey : List (String × RegEntry) → String → Option RegEntry
  | [], _ => none
  | p :: rest, k => if p.1 == k then some p.2 else getKey rest k

def setKey : List (String × RegEntry) → String → RegEntry → List (String × RegEntry)
  | [], k, v => [(k, v)]
  | p :: rest, k, v => if p.1 == k then (k, v) :: rest else p :: setKey rest k v

def eraseKey : List (String × RegEntry) → String → List (String × RegEntry)
  | [], _ => []
  | p :: rest, k => if p.1 == k then eraseKey rest k else p :: eraseKey rest k

/-- `updateModRegistry` (lines 269-279), as the pure transformation it
performs on the registry mapping: delete the old key when the file name
changed, then write the new key. -/
def updateModRegistry (registry : List (String × RegEntry)) (oldFileName : String)
    (modInfo : RegEntry) : List (String × RegEntry) :=
  let registry1 := if oldFileName ≠ modInfo.fileName then eraseKey registry oldFileName else registry
  setKey registry1 modInfo.fileName modInfo

/-! ## World state, events, traces -/

/-- Observable local state: the set of artifact file paths present, the
registry mapping, and the backup directory (`none` = the directory does not
exist; `some l` = it exists and holds the backup file names `l`). -/
structure World where
  files : List String
  registry : List (String × RegEntry)
  backupsDir : Option (List String)
deriving Repr, DecidableEq

inductive Event where
  | updateCheckStarted (profileId : String) (modCount : Nat)
  | checkingMod (modName : String) (progress total : Nat)
  | updateCheckCompleted (profileId : String) (updatesAvailable : Nat)
  | updateStarted (modName : String)
  | downloading (modName : String) (progress : Int)
  | updateCompleted (modName oldVersion newVersion : String)
  | updateFailed (modName error : String)
  | batchUpdateProgress (current total : Nat) (modName : String)
  | batchUpdateCompleted
deriving Repr, DecidableEq

/-- Trace actions: an emitted event, or the call to `restoreFromBackup`
(recorded so that the order of the rollback attempt relative to events is
observable). -/
inductive Act where
  | ev (e : Event)
  | restoreAttempt
deriving Repr, DecidableEq

/-- Outcome of each awaited fallible sub-step of `updateMod`:
`none` = resolved, `some e` = rejected with message `e`.  `progressEvents`
lists the progress percentages delivered by the download stream before it
finished or failed. -/
structure Outcomes where
  backupErr : Option String
  downloadErr : Option String
  removeErr : Option String
  moveErr : Option String
  commitErr : Option String
  restoreErr : Option String
  progressEvents : List Int
deriving Repr, DecidableEq

def joinPath (a b : String) : String := a ++ "/" ++ b

/-- JS `String.prototype.startsWith` / `endsWith`. -/
def charsPrefix : List Char → List Char → Bool
  | [], _ => true
  | _ :: _, [] => false
  | a :: as, b :: bs => a == b && charsPrefix as bs

def jsStartsWith (s pre : String) : Bool := charsPrefix pre.data s.data

def jsEndsWith (s suf : String) : Bool := charsPrefix suf.data.reverse s.data.reverse

/-- `path.dirname`: drop the last `/`-separated component. -/
def dirname (s : String) : String :=
  String.intercalate "/" ((jsSplit s (fun c => c == '/')).dropLast)

def addFile (l : List String) (x : String) : List String :=
  if l.contains x then l else l ++ [x]

def removeFile (l : List String) (x : String) : List String :=
  l.filter (fun f => !(f == x))

/-! ## updateMod (lines 100-153) and its helpers -/

/-- `mod.latestVersion.files.find(f => f.primary) || mod.latestVersion.files[0]`. -/
def chooseFile (files : List DlFile) : Option DlFile :=
  match files.find? (fun f => f.primary) with
  | some f => some f
  | none => files.head?

/-- The backup file name `${mod.fileName}.backup.${Date.now()}` (`now` models
`Date.now()`). -/
def backupName (mod : ModItem) (now : Nat) : String :=
  mod.fileName ++ ".backup." ++ toString now

/-- `createBackup` (lines 217-226): ensure the backup directory exists, then
copy the artifact into it under a timestamped name. -/
def createBackup (mod : ModItem) (now : Nat) (w : World) : World :=
  { w with backupsDir := some (w.backupsDir.getD [] ++ [backupName mod now]) }

/-- `sort().reverse()[0]`: the lexicographically greatest element. -/
def maxString (l : List String) : Option String :=
  l.foldl (fun acc s =>
    match acc with
    | none => some s
    | some m => if jsLt m s then some s else some m) none

/-- `restoreFromBackup` (lines 281-298), success case: if the backup
directory exists and holds a backup for this mod, copy the most recent one
back over the artifact path. -/
def restoreFromBackup (mod : ModItem) (w : World) : World :=
  match w.backupsDir with
  | none => w
  | some backups =>
    match maxString (backups.filter (fun f => jsStartsWith f (mod.fileName ++ ".backup."))) with
    | none => w
    | some _ => { w with files := addFile w.files mod.filePath }

/-- The registry value written by the commit step (lines 124-133). -/
def mkRegEntry (mod : ModItem) (lv : CatalogVersion) (df : DlFile) (now : Nat) : RegEntry :=
  { name := mod.name
    version := lv.version_number
    projectId := mod.projectId
    fileName := df.filename
    updatedAt := toString now
    versionId := lv.id
    gameVersions := lv.game_versions
    loaders := lv.loaders }

structure UpdOk where
  oldFile : String
  newFile : String
  newVersion : String
deriving Repr, DecidableEq

instance {α β : Type} [DecidableEq α] [DecidableEq β] : DecidableEq (Except α β) := fun x y =>
  match x, y with
  | Except.ok a, Except.ok b =>
    if h : a = b then isTrue (by rw [h]) else isFalse (by simp [h])
  | Except.error a, Except.error b =>
    if h : a = b then isTrue (by rw [h]) else isFalse (by simp [h])
  | Except.ok _, Except.error _ => isFalse (by simp)
  | Except.error _, Except.ok _ => isFalse (by simp)

/-- Result of one `updateMod` run: final world, trace, and the value the
returned promise settles with. -/
structure UpdRun where
  world : World
  trace : List Act
  result : Except String UpdOk
deriving Repr, DecidableEq

/-- The `catch` block of `updateMod` (lines 148-152): emit `updateFailed`,
then `await restoreFromBackup` — which is NOT wrapped in its own
try/catch, so if it rejects, its error replaces the original one — then
re-throw the original error. -/
def runFailure (mod : ModItem) (oc : Outcomes) (w : World) (tr : List Act) (e : String) : UpdRun :=
  let tr1 := tr ++ [Act.ev (Event.updateFailed mod.name e), Act.restoreAttempt]
  match oc.restoreErr with
  | some re => { world := w, trace := tr1, result := Except.error re }
  | none => { world := restoreFromBackup mod w, trace := tr1, result := Except.error e }

/-- `updateMod` (lines 100-153). -/
def updateMod (mod : ModItem) (profile : Profile) (oc : Outcomes) (now : Nat) (w : World) : UpdRun :=
  match mod.latestVersion with
  | none => { world := w, trace := [], result := Except.error "No update available" }
  | some lv =>
    let tr0 := [Act.ev (Event.updateStarted mod.name)]
    match oc.backupErr with
    | some e =>
      -- `fs.ensureDir` succeeded, the copy rejected: directory ensured, no backup added.
      runFailure mod oc { w with backupsDir := some (w.backupsDir.getD []) } tr0 e
    | none =>
      let w1 := createBackup mod now w
      match chooseFile lv.files with
      | none =>
        -- `files` empty: `downloadFile` is `undefined` and `.filename` throws.
        runFailure mod oc w1 tr0 "Cannot read properties of undefined (reading \x7bfilename\x7d)"
      | some df =>
        let tr1 := tr0 ++ oc.progressEvents.map (fun p => Act.ev (Event.downloading mod.name p))
        match oc.downloadErr with
        | some e => runFailure mod oc w1 tr1 e
        | none =>
          -- swap: `if (await fs.pathExists(mod.filePath)) await fs.remove(mod.filePath)`
          match (if w1.files.contains mod.filePath then oc.removeErr else none) with
          | some e => runFailure mod oc w1 tr1 e
          | none =>
            let w2 := if w1.files.contains mod.filePath
              then { w1 with files := removeFile w1.files mod.filePath } else w1
            match oc.moveErr with
            | some e => runFailure mod oc w2 tr1 e
            | none =>
              let newPath := joinPath (dirname mod.filePath) df.filename
              let w3 := { w2 with files := addFile w2.files newPath }
              match oc.commitErr with
              | some e => runFailure mod oc w3 tr1 e
              | none =>
                let w4 := { w3 with
                  registry := updateModRegistry w3.registry mod.fileName (mkRegEntry mod lv df now) }
                { world := w4
                  trace := tr1 ++ [Act.ev (Event.updateCompleted mod.name mod.currentVersion lv.version_number)]
                  result := Except.ok
                    { oldFile := mod.fileName, newFile := df.filename, newVersion := lv.version_number } }

/-! ## updateMultipleMods (lines 155-185) -/

/-- A per-item entry of the `results` array: the success shape
`{ mod, success: true, oldFile, newFile, newVersion }` or the failure shape
`{ mod, success: false, error }`. -/
inductive BatchResult where
  | ok (modName oldFile newFile newVersion : String)
  | fail (modName error : String)
deriving Repr, DecidableEq

/-- What the loop body pushes for one item, given how `updateMod` settled. -/
def mkEntry (mod : ModItem) (r : Except String UpdOk) : BatchResult :=
  match r with
  | Except.ok u => BatchResult.ok mod.name u.oldFile u.newFile u.newVersion
  | Except.error e => BatchResult.fail mod.name e

/-- The `for` loop of `updateMultipleMods`: `pos` is the 0-based index of the
head, `ocs i` the sub-step outcomes for the i-th remaining item. -/
def runBatch (profile : Profile) (now : Nat) (total : Nat) :
    List ModItem → Nat → (Nat → Outcomes) → World → World × List Act × List BatchResult
  | [], _, _, w => (w, [], [])
  | m :: ms, pos, ocs, w =>
    let r := updateMod m profile (ocs 0) now w
    let rest := runBatch profile now total ms (pos + 1) (fun i => ocs (i + 1)) r.world
    (rest.1,
     Act.ev (Event.batchUpdateProgress (pos + 1) total m.name) :: (r.trace ++ rest.2.1),
     mkEntry m r.result :: rest.2.2)

/-- `updateMultipleMods` (lines 155-185). -/
def updateMultipleMods (mods : List ModItem) (profile : Profile) (ocs : Nat → Outcomes)
    (now : Nat) (w : World) : World × List Act × List BatchResult :=
  let out := runBatch profile now mods.length mods 0 ocs w
  (out.1, out.2.1 ++ [Act.ev Event.batchUpdateCompleted], out.2.2)

/-- The world as it stands when the i-th item of the batch starts. -/
def worldBefore (profile : Profile) (now : Nat) :
    List ModItem → (Nat → Outcomes) → World → Nat → World
  | _, _, w, 0 => w
  | [], _, w, _ + 1 => w
  | m :: ms, ocs, w, i + 1 =>
    worldBefore profile now ms (fun j => ocs (j + 1)) (updateMod m profile (ocs 0) now w).world i

/-! ## checkForUpdates (lines 15-67) and getInstalledMods (lines 69-98) -/

/-- An element of the `updateResults` array.  A field is `none` when the JS
object lacks it (or holds `null`): the error-branch object carries no
`canUpdate`/`updateSize`, and `updateSize` is only set when an update was
found. -/
structure Report where
  fileName : String
  filePath : String
  name : String
  currentVersion : String
  projectId : String
  hasUpdate : Bool
  latestVersion : Option CatalogVersion
  canUpdate : Option Bool
  updateSize : Option Nat
  error : Option String
deriving Repr, DecidableEq

/-- `latestVersion.files[0]?.size || 0`. -/
def firstFileSize (files : List DlFile) : Nat :=
  match files.head? with
  | none => 0
  | some f => f.size.getD 0

/-- Modelled from the spec: "size of the primary file in the candidate's
file list, or 0 if absent" (§4.2 step 3), for comparison with the code's
`files[0]?.size || 0`. -/
def specPrimaryFileSize (files : List DlFile) : Nat :=
  match files.find? (fun f => f.primary) with
  | some f => f.size.getD 0
  | none => 0

/-- One iteration of the `checkForUpdates` loop body for one installed mod
(lines 25-57).  `apiRes` is how `api.getLatestVersion` settled:
`Except.error e` = it rejected with message `e`; `Except.ok v` = it resolved
with `v` (possibly `null`). -/
def checkOne (mod : ModItem) (apiRes : Except String (Option CatalogVersion)) : Report :=
  match apiRes with
  | Except.error e =>
    { fileName := mod.fileName, filePath := mod.filePath, name := mod.name,
      currentVersion := mod.currentVersion, projectId := mod.projectId,
      hasUpdate := false, latestVersion := none, canUpdate := none,
      updateSize := none, error := some e }
  | Except.ok olv =>
    let base : Report :=
      { fileName := mod.fileName, filePath := mod.filePath, name := mod.name,
        currentVersion := mod.currentVersion, projectId := mod.projectId,
        hasUpdate := false, latestVersion := none, canUpdate := some false,
        updateSize := none, error := none }
    match olv with
    | some lv =>
      if compareVersions mod.currentVersion lv.version_number < 0 then
        { base with
          hasUpdate := true, latestVersion := some lv, canUpdate := some true,
          updateSize := some (firstFileSize lv.files) }
      else base
    | none => base

/-- The `updateResults` array produced by the loop; `api i` is the catalog
outcome for the i-th mod. -/
def checkReports : List ModItem → (Nat → Except String (Option CatalogVersion)) → List Report
  | [], _ => []
  | m :: ms, api => checkOne m (api 0) :: checkReports ms (fun i => api (i + 1))

/-- The `checkingMod` events emitted by the loop, in order. -/
def checkingEvents : List ModItem → Nat → Nat → List Event
  | [], _, _ => []
  | m :: ms, pos, total => Event.checkingMod m.name (pos + 1) total :: checkingEvents ms (pos + 1) total

/-- `getInstalledMods` (lines 69-98): if the mods directory is missing,
return the empty list; otherwise keep the `.jar` files that have a registry
entry with a truthy `projectId`. -/
def getInstalledMods (modsPathExists : Bool) (modsPath : String) (dirFiles : List String)
    (registry : List (String × RegEntry)) : List ModItem :=
  if !modsPathExists then []
  else
    (dirFiles.filter (fun f => jsEndsWith f ".jar")).filterMap (fun f =>
      match getKey registry f with
      | some info =>
        if info.projectId ≠ "" then
          some { fileName := f, filePath := joinPath modsPath f, name := info.name,
                 currentVersion := info.version, projectId := info.projectId,
                 latestVersion := none }
        else none
      | none => none)

/-- `checkForUpdates` (lines 15-67): returns the emitted event sequence and
the report array.  (The per-mod `checkingMod` events interleave with report
construction in the source; the flattened order is identical.) -/
def checkForUpdates (profileId : String) (modsPathExists : Bool) (modsPath : String)
    (dirFiles : List String) (registry : List (String × RegEntry))
    (api : Nat → Except String (Option CatalogVersion)) : List Event × List Report :=
  let installedMods := getInstalledMods modsPathExists modsPath dirFiles registry
  let updateResults := checkReports installedMods api
  (Event.updateCheckStarted profileId installedMods.length
      :: checkingEvents installedMods 0 installedMods.length
      ++ [Event.updateCheckCompleted profileId (updateResults.filter (fun r => r.hasUpdate)).length],
   updateResults)

/-! ## Concrete fixtures used by witnesses and counterexamples -/

def tFile1 : DlFile := { url := "u1", filename := "mod-2.0.jar", primary := false, size := some 10 }

def tFile2 : DlFile := { url := "u2", filename := "mod-2.0-pri.jar", primary := true, size := some 20 }

def tLv : CatalogVersion :=
  { id := "v2", version_number := "2.0.0", files := [tFile1, tFile2],
    game_versions := ["1.20"], loaders := ["fabric"] }

def tMod : ModItem :=
  { fileName := "mod-1.0.jar", filePath := "p/mods/mod-1.0.jar", name := "MyMod",
    currentVersion := "1.0.0", projectId := "proj", latestVersion := some tLv }

def tProfile : Profile :=
  { id := "prof", path := "p", modsPath := "p/mods", gameVersion := "1.20", loader := "fabric" }

def tEntry : RegEntry :=
  { name := "MyMod", version := "1.0.0", projectId := "proj", fileName := "mod-1.0.jar",
    updatedAt := "0", versionId := "v1", gameVersions := ["1.20"], loaders := ["fabric"] }

def tW : World :=
  { files := ["p/mods/mod-1.0.jar"], registry := [("mod-1.0.jar", tEntry)], backupsDir := none }

def okOc : Outcomes :=
  { backupErr := none, downloadErr := none, removeErr := none, moveErr := none,
    commitErr := none, restoreErr := none, progressEvents := [] }

/-! ## Lemmas about the comparison loop -/

theorem ltChars_asymm : ∀ as bs, ltChars as bs = true → ltChars bs as = false := by
  intro as
  induction as with
  | nil => intro bs h; cases bs <;> simp [ltChars] at h ⊢
  | cons a as ih =>
    intro bs h
    cases bs with
    | nil => simp [ltChars] at h
    | cons b bs =>
      simp only [ltChars] at h ⊢
      by_cases h1 : a.toNat < b.toNat
      · simp [h1, Nat.lt_asymm h1]
      · by_cases h2 : b.toNat < a.toNat
        · simp [h1, h2] at h
        · simp only [h1, h2, if_neg, if_false] at h ⊢
          simp [ih bs h]

theorem ltChars_irrefl : ∀ as, ltChars as as = false := by
  intro as
  induction as with
  | nil => simp [ltChars]
  | cons a as ih => simp [ltChars, ih]

theorem jsLt_asymm (x y : String) (h : jsLt x y = true) : jsLt y x = false :=
  ltChars_asymm x.data y.data h

theorem jsLt_irrefl (x : String) : jsLt x x = false :=
  ltChars_irrefl x.data

theorem cmpTok_antisymm (a b : Tok) : cmpTok a b = -cmpTok b a := by
  have strCase : ∀ x y : String,
      (if jsLt x y then (-1 : Int) else if jsLt y x then 1 else 0)
        = -(if jsLt y x then (-1 : Int) else if jsLt x y then 1 else 0) := by
    intro x y
    cases h1 : jsLt x y
    · cases h2 : jsLt y x <;> simp
    · simp [jsLt_asymm x y h1]
  cases a <;> cases b <;> simp only [cmpTok] <;>
    first
      | (apply strCase)
      | (split_ifs with h1 h2 <;>
          first
            | rfl
            | (exact absurd h2 (lt_asymm h1)))

theorem cmpTok_self (t : Tok) : cmpTok t t = 0 := by
  cases t <;> simp [cmpTok, jsLt_irrefl]

theorem cmpFrom_antisymm (a b : List Tok) : ∀ fuel i, cmpFrom a b i fuel = -cmpFrom b a i fuel := by
  intro fuel
  induction fuel with
  | zero => intro i; simp [cmpFrom]
  | succ n ih =>
    intro i
    simp only [cmpFrom]
    have h := cmpTok_antisymm (tokDefault a[i]?) (tokDefault b[i]?)
    by_cases hc : cmpTok (tokDefault a[i]?) (tokDefault b[i]?) = 0
    · have hc' : cmpTok (tokDefault b[i]?) (tokDefault a[i]?) = 0 := by
        rw [hc] at h; omega
      rw [hc, hc']
      simpa using ih (i + 1)
    · have hc' : ¬ cmpTok (tokDefault b[i]?) (tokDefault a[i]?) = 0 := by
        intro h0; rw [h0] at h; simp at h; exact hc h
      simp [hc, hc', h]

theorem cmpFrom_self (a : List Tok) : ∀ fuel i, cmpFrom a a i fuel = 0 := by
  intro fuel
  induction fuel with
  | zero => intro i; simp [cmpFrom]
  | succ n ih => intro i; simp [cmpFrom, cmpTok_self, ih]

/-- C9: for all version strings `a`, `b`, `compareVersions a b` is the
negation of `compareVersions b a`, and `compareVersions` of a string with
itself is 0. -/
theorem compareVersions_antisymm_refl (a b : String) :
    compareVersions a b = -compareVersions b a ∧ compareVersions a a = 0 := by
  constructor
  · simp only [compareVersions]
    rw [Nat.max_comm (parseVersion b).length (parseVersion a).length]
    exact cmpFrom_antisymm (parseVersion a) (parseVersion b) _ 0
  · simp [compareVersions, cmpFrom_self]

/-- C7 counterexample: the code's tokenizer does NOT keep "2beta" as a
string: `parseInt("2beta")` is 2, so the token becomes the number 2, and
"1.2beta" compares equal to "1.2" — whereas the claim's fully-numeric
tokenisation (`specParsePart` / `specCompareVersions`) keeps "2beta" as a
string and compares "1.2beta" lexically above "1.2". -/
theorem compareVersions_numericPrefix_counterexample :
    parsePart "2beta" = Tok.num 2 ∧
    specParsePart "2beta" = Tok.str "2beta" ∧
    compareVersions "1.2beta" "1.2" = 0 ∧
    specCompareVersions "1.2beta" "1.2" = 1 := by
  refine ⟨by decide, by decide, by decide, by decide⟩

/-- C7 amended: a token is interpreted as a number iff `parseInt` finds a
numeric prefix (it is kept as a string exactly when `parseInt` returns NaN);
hence "2beta" is interpreted as the number 2 and compared numerically, not
lexically ("1.2beta" equals "1.2", and "1.10alpha" ranks above "1.9" because
10 > 9 numerically, while the lexical comparison would rank "10alpha" below
"9"). -/
theorem compareVersions_numericPrefix_amended :
    (∀ s, parsePart s = Tok.str s ↔ parseIntJS s = none) ∧
    parsePart "2beta" = Tok.num 2 ∧
    parseVersion "1.2beta" = [Tok.num 1, Tok.num 2] ∧
    parseVersion "1.0-beta" = [Tok.num 1, Tok.num 0, Tok.str "beta"] ∧
    compareVersions "1.2beta" "1.2" = 0 ∧
    compareVersions "1.10alpha" "1.9" = 1 := by
  refine ⟨?_, by decide, by decide, by decide, by decide, by decide⟩
  intro s
  unfold parsePart
  cases h : parseIntJS s <;> simp

/-! ## Registry lemmas -/

theorem getKey_setKey_self (l : List (String × RegEntry)) (k : String) (v : RegEntry) :
    getKey (setKey l k v) k = some v := by
  induction l with
  | nil => simp [setKey, getKey]
  | cons p rest ih =>
    by_cases h : p.1 == k
    · simp [setKey, getKey, h]
    · simp [setKey, getKey, h, ih]

theorem getKey_setKey_ne (l : List (String × RegEntry)) (k k' : String) (v : RegEntry)
    (h : k' ≠ k) : getKey (setKey l k v) k' = getKey l k' := by
  induction l with
  | nil =>
    have : (k == k') = false := by simp [Ne.symm h]
    simp [setKey, getKey, this]
  | cons p rest ih =>
    by_cases hp : p.1 == k
    · have hpk : p.1 = k := by simpa using hp
      have : (k == k') = false := by simp [Ne.symm h]
      have hpk' : (p.1 == k') = false := by simp [hpk, Ne.symm h]
      simp [setKey, getKey, hp, this, hpk']
    · simp [setKey, getKey, hp, ih]

theorem getKey_eraseKey_self (l : List (String × RegEntry)) (k : String) :
    getKey (eraseKey l k) k = none := by
  induction l with
  | nil => simp [eraseKey, getKey]
  | cons p rest ih =>
    by_cases h : p.1 == k
    · simp [eraseKey, h, ih]
    · simp [eraseKey, getKey, h, ih]

/-- `updateModRegistry` always writes the new record under its file-name
key (whether or not the old key differed). -/
theorem updateModRegistry_writes (registry : List (String × RegEntry)) (oldFileName : String)
    (modInfo : RegEntry) :
    getKey (updateModRegistry registry oldFileName modInfo) modInfo.fileName = some modInfo := by
  simp only [updateModRegistry]
  exact getKey_setKey_self _ _ _

/-- After `updateModRegistry` with a changed file name, the old key is gone
and the new key holds the new record. -/
theorem updateModRegistry_renames (registry : List (String × RegEntry)) (oldFileName : String)
    (modInfo : RegEntry) (h : oldFileName ≠ modInfo.fileName) :
    getKey (updateModRegistry registry oldFileName modInfo) oldFileName = none ∧
    getKey (updateModRegistry registry oldFileName modInfo) modInfo.fileName = some modInfo := by
  constructor
  · simp only [updateModRegistry]
    rw [if_pos h, getKey_setKey_ne _ _ _ _ h, getKey_eraseKey_self]
  · simp only [updateModRegistry]
    rw [if_pos h]
    exact getKey_setKey_self _ _ _

/-! ## Helper lemmas about updateMod's failure path -/

theorem runFailure_trace (mod : ModItem) (oc : Outcomes) (w : World) (tr : List Act) (e : String) :
    (runFailure mod oc w tr e).trace =
      tr ++ [Act.ev (Event.updateFailed mod.name e), Act.restoreAttempt] := by
  cases h : oc.restoreErr <;> simp [runFailure, h]

theorem runFailure_result (mod : ModItem) (oc : Outcomes) (w : World) (tr : List Act) (e : String) :
    (runFailure mod oc w tr e).result = Except.error (oc.restoreErr.getD e) := by
  cases h : oc.restoreErr <;> simp [runFailure, h]

def tModNoLatest : ModItem := { tMod with latestVersion := none }

def tOcDownloadFail : Outcomes := { okOc with downloadErr := some "Download failed" }

def tOcRollbackFail : Outcomes :=
  { okOc with downloadErr := some "Download failed", restoreErr := some "Rollback failed" }

/-- C6: calling `updateMod` with a report whose `latestVersion` is null
fails immediately with the "No update available" error, emits no events,
attempts no rollback, and leaves the world (files, registry, backups)
untouched. -/
theorem updateMod_noUpdateAvailable_noSideEffects (mod : ModItem) (profile : Profile)
    (oc : Outcomes) (now : Nat) (w : World) (h : mod.latestVersion = none) :
    updateMod mod profile oc now w =
      { world := w, trace := [], result := Except.error "No update available" } := by
  unfold updateMod
  rw [h]

theorem updateMod_noUpdateAvailable_noSideEffects_witness :
    updateMod tModNoLatest tProfile okOc 5 tW =
      { world := tW, trace := [], result := Except.error "No update available" } :=
  updateMod_noUpdateAvailable_noSideEffects tModNoLatest tProfile okOc 5 tW rfl

/-- C3: on every successful update, the commit step writes the new
file-name key with the fresh metadata record, and whenever the new file
name differs from the old one it also removes the old file-name key. -/
theorem updateMod_commit_registry (mod : ModItem) (profile : Profile) (oc : Outcomes)
    (now : Nat) (w : World) (lv : CatalogVersion) (df : DlFile)
    (hlv : mod.latestVersion = some lv)
    (hdf : chooseFile lv.files = some df)
    (hb : oc.backupErr = none) (hd : oc.downloadErr = none) (hr : oc.removeErr = none)
    (hm : oc.moveErr = none) (hc : oc.commitErr = none) :
    (updateMod mod profile oc now w).result =
      Except.ok { oldFile := mod.fileName, newFile := df.filename, newVersion := lv.version_number } ∧
    (df.filename ≠ mod.fileName →
      getKey (updateMod mod profile oc now w).world.registry mod.fileName = none) ∧
    getKey (updateMod mod profile oc now w).world.registry df.filename =
      some (mkRegEntry mod lv df now) := by
  have hworld : (updateMod mod profile oc now w).world.registry =
      updateModRegistry w.registry mod.fileName (mkRegEntry mod lv df now) := by
    by_cases hcont : mod.filePath ∈ w.files <;>
      simp [updateMod, hlv, hb, hdf, hd, createBackup, hcont, hr, hm, hc]
  refine ⟨?_, ?_, ?_⟩
  · by_cases hcont : mod.filePath ∈ w.files <;>
      simp [updateMod, hlv, hb, hdf, hd, createBackup, hcont, hr, hm, hc]
  · intro hne
    have hne' : mod.fileName ≠ (mkRegEntry mod lv df now).fileName := by
      simpa [mkRegEntry] using hne.symm
    rw [hworld]
    exact (updateModRegistry_renames w.registry mod.fileName (mkRegEntry mod lv df now) hne').1
  · rw [hworld]
    have h := updateModRegistry_writes w.registry mod.fileName (mkRegEntry mod lv df now)
    simpa [mkRegEntry] using h

theorem updateMod_commit_registry_witness :
    (updateMod tMod tProfile okOc 5 tW).result =
      Except.ok { oldFile := "mod-1.0.jar", newFile := "mod-2.0-pri.jar", newVersion := "2.0.0" } ∧
    getKey (updateMod tMod tProfile okOc 5 tW).world.registry "mod-1.0.jar" = none ∧
    getKey (updateMod tMod tProfile okOc 5 tW).world.registry "mod-2.0-pri.jar" =
      some (mkRegEntry tMod tLv tFile2 5) := by
  have h := updateMod_commit_registry tMod tProfile okOc 5 tW tLv tFile2
    rfl rfl rfl rfl rfl rfl rfl
  exact ⟨h.1, h.2.1 (by decide), h.2.2⟩

/-- C1 counterexample: a run whose download step fails with "Download
failed" and whose rollback attempt itself fails with "Rollback failed"
surfaces the ROLLBACK error to the caller, not the original step error —
the `catch` block awaits `restoreFromBackup` without guarding it. -/
theorem updateMod_rollbackError_counterexample :
    (updateMod tMod tProfile tOcRollbackFail 5 tW).result = Except.error "Rollback failed" ∧
    (updateMod tMod tProfile tOcRollbackFail 5 tW).trace.contains Act.restoreAttempt = true ∧
    tOcRollbackFail.downloadErr = some "Download failed" ∧
    "Rollback failed" ≠ "Download failed" := by
  refine ⟨by decide, by decide, by decide, by decide⟩

/-- C1 amended: when the download, swap (remove/move) or commit step fails
with error `e`, the executor attempts a rollback, but a failure of the
rollback is NOT swallowed: the error surfaced to the caller is the rollback
error when the rollback fails, and the original error `e` only when the
rollback succeeds. -/
theorem updateMod_rollbackFailure_escalates
    (mod : ModItem) (profile : Profile) (oc : Outcomes) (now : Nat) (w : World)
    (lv : CatalogVersion) (df : DlFile) (e : String)
    (hlv : mod.latestVersion = some lv)
    (hb : oc.backupErr = none)
    (hdf : chooseFile lv.files = some df)
    (hfail :
      oc.downloadErr = some e
      ∨ (oc.downloadErr = none ∧ w.files.contains mod.filePath = true ∧ oc.removeErr = some e)
      ∨ (oc.downloadErr = none ∧ (w.files.contains mod.filePath = true → oc.removeErr = none)
          ∧ oc.moveErr = some e)
      ∨ (oc.downloadErr = none ∧ (w.files.contains mod.filePath = true → oc.removeErr = none)
          ∧ oc.moveErr = none ∧ oc.commitErr = some e)) :
    (updateMod mod profile oc now w).result = Except.error (oc.restoreErr.getD e) := by
  rcases hfail with hd | ⟨hd, hcont, hrem⟩ | ⟨hd, hrem, hmv⟩ | ⟨hd, hrem, hmv, hcm⟩
  · simp [updateMod, hlv, hb, hdf, hd, runFailure_result]
  · have hmem : mod.filePath ∈ w.files := by simpa using hcont
    simp [updateMod, hlv, hb, hdf, hd, createBackup, hmem, hrem, runFailure_result]
  · by_cases hc : mod.filePath ∈ w.files
    · have hrn := hrem (by simpa using hc)
      simp [updateMod, hlv, hb, hdf, hd, createBackup, hc, hrn, hmv, runFailure_result]
    · simp [updateMod, hlv, hb, hdf, hd, createBackup, hc, hmv, runFailure_result]
  · by_cases hc : mod.filePath ∈ w.files
    · have hrn := hrem (by simpa using hc)
      simp [updateMod, hlv, hb, hdf, hd, createBackup, hc, hrn, hmv, hcm, runFailure_result]
    · simp [updateMod, hlv, hb, hdf, hd, createBackup, hc, hmv, hcm, runFailure_result]

theorem updateMod_rollbackFailure_escalates_witness :
    (updateMod tMod tProfile tOcRollbackFail 5 tW).result = Except.error "Rollback failed" := by
  have h := updateMod_rollbackFailure_escalates tMod tProfile tOcRollbackFail 5 tW tLv tFile2
    "Download failed" rfl rfl rfl (Or.inl rfl)
  simpa using h

/-! ## Trace checkers for the event protocol (claim C2) -/

/-- Is this action a terminal per-update event (`updateCompleted` or
`updateFailed`)? -/
def isFinalEv : Act → Bool
  | Act.ev (Event.updateCompleted _ _ _) => true
  | Act.ev (Event.updateFailed _ _) => true
  | _ => false

def finalCount (t : List Act) : Nat := t.countP isFinalEv

def isFailedEv : Act → Bool
  | Act.ev (Event.updateFailed _ _) => true
  | _ => false

/-- The claim's ordering predicate: every `updateFailed` event occurs only
after a rollback attempt has completed.  The Bool argument records whether a
restore attempt has been seen so far. -/
def onlyAfterRestore : Bool → List Act → Bool
  | _, [] => true
  | _, Act.restoreAttempt :: rest => onlyAfterRestore true rest
  | seen, a :: rest =>
    if isFailedEv a then seen && onlyAfterRestore seen rest else onlyAfterRestore seen rest

/-- The code's actual ordering: every `updateFailed` event is immediately
followed by the rollback attempt (the event fires first, then the restore
runs). -/
def failedThenRestore : List Act → Bool
  | [] => true
  | a :: rest =>
    if isFailedEv a then
      match rest with
      | Act.restoreAttempt :: _ => failedThenRestore rest
      | _ => false
    else failedThenRestore rest

theorem countP_final_prog (name : String) (ps : List Int) :
    (ps.map (fun p => Act.ev (Event.downloading name p))).countP isFinalEv = 0 := by
  induction ps with
  | nil => rfl
  | cons p ps ih => simp [List.countP_cons, isFinalEv, ih]

theorem ftr_prog (name : String) (ps : List Int) (rest : List Act) :
    failedThenRestore (ps.map (fun p => Act.ev (Event.downloading name p)) ++ rest) =
      failedThenRestore rest := by
  induction ps with
  | nil => rfl
  | cons p ps ih => simpa [failedThenRestore, isFailedEv] using ih

/-- C2 counterexample: in a run whose download fails, the trace is
`updateStarted`, then `updateFailed`, then the rollback attempt — the
`updateFailed` event fires BEFORE the rollback attempt completes, so the
claim's "emitted only after the rollback attempt has completed" is false
(while "exactly one terminal event" does hold for this run). -/
theorem updateFailed_beforeRollback_counterexample :
    (updateMod tMod tProfile tOcDownloadFail 5 tW).trace =
      [Act.ev (Event.updateStarted "MyMod"),
       Act.ev (Event.updateFailed "MyMod" "Download failed"), Act.restoreAttempt] ∧
    finalCount (updateMod tMod tProfile tOcDownloadFail 5 tW).trace = 1 ∧
    onlyAfterRestore false (updateMod tMod tProfile tOcDownloadFail 5 tW).trace = false := by
  refine ⟨by decide, by decide, by decide⟩

/-- C2 amended: for every invocation whose report has a non-null
`latestVersion`, exactly one of `updateCompleted` / `updateFailed` is
emitted, and `updateFailed` is emitted immediately BEFORE the rollback
attempt, not after it.  (An invocation with a null `latestVersion` throws
before emitting anything.) -/
theorem updateMod_exactlyOneFinalEvent (mod : ModItem) (profile : Profile) (oc : Outcomes)
    (now : Nat) (w : World) (lv : CatalogVersion) (hlv : mod.latestVersion = some lv) :
    finalCount (updateMod mod profile oc now w).trace = 1 ∧
    failedThenRestore (updateMod mod profile oc now w).trace = true := by
  cases hb : oc.backupErr with
  | some e =>
    simp [updateMod, hlv, hb, runFailure_trace, finalCount, List.countP_cons, List.countP_append,
      isFinalEv, failedThenRestore, isFailedEv]
  | none =>
    cases hdf : chooseFile lv.files with
    | none =>
      simp [updateMod, hlv, hb, hdf, runFailure_trace, finalCount, List.countP_cons,
        List.countP_append, isFinalEv, failedThenRestore, isFailedEv]
    | some df =>
      cases hd : oc.downloadErr with
      | some e =>
        simp [updateMod, hlv, hb, hdf, hd, createBackup, runFailure_trace, finalCount,
          List.countP_cons, List.countP_append, countP_final_prog, isFinalEv,
          failedThenRestore, isFailedEv, ftr_prog]
      | none =>
        by_cases hc : mod.filePath ∈ w.files
        · cases hrm : oc.removeErr with
          | some e =>
            simp [updateMod, hlv, hb, hdf, hd, createBackup, hc, hrm, runFailure_trace,
              finalCount, List.countP_cons, List.countP_append, countP_final_prog, isFinalEv,
              failedThenRestore, isFailedEv, ftr_prog]
          | none =>
            cases hmv : oc.moveErr with
            | some e =>
              simp [updateMod, hlv, hb, hdf, hd, createBackup, hc, hrm, hmv, runFailure_trace,
                finalCount, List.countP_cons, List.countP_append, countP_final_prog, isFinalEv,
                failedThenRestore, isFailedEv, ftr_prog]
            | none =>
              cases hcm : oc.commitErr with
              | some e =>
                simp [updateMod, hlv, hb, hdf, hd, createBackup, hc, hrm, hmv, hcm,
                  runFailure_trace, finalCount, List.countP_cons, List.countP_append,
                  countP_final_prog, isFinalEv, failedThenRestore, isFailedEv, ftr_prog]
              | none =>
                simp [updateMod, hlv, hb, hdf, hd, createBackup, hc, hrm, hmv, hcm,
                  finalCount, List.countP_cons, List.countP_append, countP_final_prog,
                  isFinalEv, failedThenRestore, isFailedEv, ftr_prog]
        · cases hmv : oc.moveErr with
          | some e =>
            simp [updateMod, hlv, hb, hdf, hd, createBackup, hc, hmv, runFailure_trace,
              finalCount, List.countP_cons, List.countP_append, countP_final_prog, isFinalEv,
              failedThenRestore, isFailedEv, ftr_prog]
          | none =>
            cases hcm : oc.commitErr with
            | some e =>
              simp [updateMod, hlv, hb, hdf, hd, createBackup, hc, hmv, hcm, runFailure_trace,
                finalCount, List.countP_cons, List.countP_append, countP_final_prog, isFinalEv,
                failedThenRestore, isFailedEv, ftr_prog]
            | none =>
              simp [updateMod, hlv, hb, hdf, hd, createBackup, hc, hmv, hcm,
                finalCount, List.countP_cons, List.countP_append, countP_final_prog,
                isFinalEv, failedThenRestore, isFailedEv, ftr_prog]

theorem updateMod_exactlyOneFinalEvent_witness :
    finalCount (updateMod tMod tProfile tOcDownloadFail 5 tW).trace = 1 ∧
    failedThenRestore (updateMod tMod tProfile tOcDownloadFail 5 tW).trace = true :=
  updateMod_exactlyOneFinalEvent tMod tProfile tOcDownloadFail 5 tW tLv rfl

/-! ## Batch lemmas (claim C4) -/

theorem runBatch_length (profile : Profile) (now total : Nat) :
    ∀ (ms : List ModItem) (pos : Nat) (ocs : Nat → Outcomes) (w : World),
      ((runBatch profile now total ms pos ocs w).2.2).length = ms.length := by
  intro ms
  induction ms with
  | nil => intro pos ocs w; rfl
  | cons m rest ih => intro pos ocs w; simp [runBatch, ih]

theorem runBatch_get (profile : Profile) (now total : Nat) :
    ∀ (ms : List ModItem) (i : Nat) (h : i < ms.length) (pos : Nat) (ocs : Nat → Outcomes)
      (w : World),
      ((runBatch profile now total ms pos ocs w).2.2)[i]? =
        some (mkEntry (ms.get ⟨i, h⟩)
          (updateMod (ms.get ⟨i, h⟩) profile (ocs i) now
            (worldBefore profile now ms ocs w i)).result) := by
  intro ms
  induction ms with
  | nil => intro i h; exact absurd h (by simp)
  | cons m rest ih =>
    intro i h pos ocs w
    cases i with
    | zero => simp [runBatch, worldBefore]
    | succ j =>
      have hj : j < rest.length := Nat.lt_of_succ_lt_succ h
      simp only [runBatch, List.getElem?_cons_succ, List.get_cons_succ]
      exact ih j hj (pos + 1) (fun k => ocs (k + 1)) (updateMod m profile (ocs 0) now w).world

/-- C4: `updateMultipleMods` returns one result per input mod, in input
order: entry `i` is exactly the entry built from mod `i` and the way its own
`updateMod` run settled; in particular a failing item yields a
`success = false` entry carrying that item's error message, and all later
items are still present (processing never stops early). -/
theorem updateMultipleMods_perItemResults (mods : List ModItem) (profile : Profile)
    (ocs : Nat → Outcomes) (now : Nat) (w : World) :
    ((updateMultipleMods mods profile ocs now w).2.2).length = mods.length ∧
    (∀ i (h : i < mods.length),
      ((updateMultipleMods mods profile ocs now w).2.2)[i]? =
        some (mkEntry (mods.get ⟨i, h⟩)
          (updateMod (mods.get ⟨i, h⟩) profile (ocs i) now
            (worldBefore profile now mods ocs w i)).result)) ∧
    (∀ i (h : i < mods.length) e,
      (updateMod (mods.get ⟨i, h⟩) profile (ocs i) now
        (worldBefore profile now mods ocs w i)).result = Except.error e →
      ((updateMultipleMods mods profile ocs now w).2.2)[i]? =
        some (BatchResult.fail (mods.get ⟨i, h⟩).name e)) := by
  refine ⟨runBatch_length profile now mods.length mods 0 ocs w, ?_, ?_⟩
  · intro i h
    exact runBatch_get profile now mods.length mods i h 0 ocs w
  · intro i h e he
    rw [show ((updateMultipleMods mods profile ocs now w).2.2)[i]? =
        ((runBatch profile now mods.length mods 0 ocs w).2.2)[i]? from rfl]
    rw [runBatch_get profile now mods.length mods i h 0 ocs w, he]
    rfl

def tBatchMods : List ModItem :=
  [{ tMod with name := "A" }, { tMod with name := "B" }, { tMod with name := "C" }]

def tBatchOcs : Nat → Outcomes :=
  fun i => if i = 1 then { okOc with downloadErr := some "boom" } else okOc

theorem updateMultipleMods_perItemResults_witness :
    ((updateMultipleMods tBatchMods tProfile tBatchOcs 5 tW).2.2).length = 3 ∧
    ((updateMultipleMods tBatchMods tProfile tBatchOcs 5 tW).2.2)[1]? =
      some (BatchResult.fail "B" "boom") := by
  have h := updateMultipleMods_perItemResults tBatchMods tProfile tBatchOcs 5 tW
  refine ⟨h.1, ?_⟩
  exact h.2.2 1 (by decide) "boom" (by decide)

/-! ## Checker lemmas (claims C5, C8, C10) -/

theorem checkReports_length :
    ∀ (ms : List ModItem) (api : Nat → Except String (Option CatalogVersion)),
      (checkReports ms api).length = ms.length := by
  intro ms
  induction ms with
  | nil => intro api; rfl
  | cons m rest ih => intro api; simp [checkReports, ih]

theorem checkReports_get :
    ∀ (ms : List ModItem) (i : Nat) (h : i < ms.length)
      (api : Nat → Except String (Option CatalogVersion)),
      (checkReports ms api)[i]? = some (checkOne (ms.get ⟨i, h⟩) (api i)) := by
  intro ms
  induction ms with
  | nil => intro i h; exact absurd h (by simp)
  | cons m rest ih =>
    intro i h api
    cases i with
    | zero => simp [checkReports]
    | succ j =>
      have hj : j < rest.length := Nat.lt_of_succ_lt_succ h
      simp only [checkReports, List.getElem?_cons_succ, List.get_cons_succ]
      exact ih j hj (fun k => api (k + 1))

theorem checkOne_error (mod : ModItem) (e : String) :
    (checkOne mod (Except.error e)).error = some e ∧
    (checkOne mod (Except.error e)).hasUpdate = false := ⟨rfl, rfl⟩

/-- C5: `checkForUpdates` produces exactly one report per installed mod even
when the catalog query fails for some of them: a mod whose catalog call
rejected gets a report carrying that error with `hasUpdate = false`, and
every other mod still gets its own report (the loop never aborts). -/
theorem checkForUpdates_oneReportPerMod (profileId : String) (modsPathExists : Bool)
    (modsPath : String) (dirFiles : List String) (registry : List (String × RegEntry))
    (api : Nat → Except String (Option CatalogVersion)) :
    ((checkForUpdates profileId modsPathExists modsPath dirFiles registry api).2).length =
      (getInstalledMods modsPathExists modsPath dirFiles registry).length ∧
    (∀ i (h : i < (getInstalledMods modsPathExists modsPath dirFiles registry).length) e,
      api i = Except.error e →
      ∃ r, ((checkForUpdates profileId modsPathExists modsPath dirFiles registry api).2)[i]? =
          some r ∧ r.error = some e ∧ r.hasUpdate = false) := by
  refine ⟨checkReports_length _ api, ?_⟩
  intro i h e he
  refine ⟨checkOne ((getInstalledMods modsPathExists modsPath dirFiles registry).get ⟨i, h⟩)
    (Except.error e), ?_, rfl, rfl⟩
  have := checkReports_get (getInstalledMods modsPathExists modsPath dirFiles registry) i h api
  rw [show ((checkForUpdates profileId modsPathExists modsPath dirFiles registry api).2)[i]? =
      (checkReports (getInstalledMods modsPathExists modsPath dirFiles registry) api)[i]? from rfl,
    this, he]

def tRegistry3 : List (String × RegEntry) :=
  [("a.jar", { tEntry with fileName := "a.jar" }),
   ("b.jar", { tEntry with fileName := "b.jar" }),
   ("c.jar", { tEntry with fileName := "c.jar" })]

def tApi3 : Nat → Except String (Option CatalogVersion) :=
  fun i => if i = 1 then Except.error "net down" else Except.ok (some tLv)

theorem checkForUpdates_oneReportPerMod_witness :
    ((checkForUpdates "prof" true "p/mods" ["a.jar", "b.jar", "c.jar"] tRegistry3 tApi3).2).length
      = 3 ∧
    ∃ r, ((checkForUpdates "prof" true "p/mods" ["a.jar", "b.jar", "c.jar"] tRegistry3
        tApi3).2)[1]? = some r ∧ r.error = some "net down" ∧ r.hasUpdate = false := by
  have h := checkForUpdates_oneReportPerMod "prof" true "p/mods" ["a.jar", "b.jar", "c.jar"]
    tRegistry3 tApi3
  refine ⟨h.1, h.2 1 (by decide) "net down" (by decide)⟩

/-- C10: when the profile's mods directory does not exist, `checkForUpdates`
returns the empty report sequence and still emits `updateCheckStarted` with
a mod count of 0 and `updateCheckCompleted` with zero updates available. -/
theorem checkForUpdates_missingModsDir (profileId : String) (modsPath : String)
    (dirFiles : List String) (registry : List (String × RegEntry))
    (api : Nat → Except String (Option CatalogVersion)) :
    checkForUpdates profileId false modsPath dirFiles registry api =
      ([Event.updateCheckStarted profileId 0, Event.updateCheckCompleted profileId 0], []) := by
  rfl

/-- C8 counterexample: a candidate whose file list is [non-primary of size
10, primary of size 20] yields `updateSize = 10` — the size of `files[0]`,
not the size of the primary file (20) that the claim requires. -/
theorem updateSize_primaryFile_counterexample :
    (checkOne tMod (Except.ok (some tLv))).hasUpdate = true ∧
    (checkOne tMod (Except.ok (some tLv))).updateSize = some 10 ∧
    specPrimaryFileSize tLv.files = 20 ∧
    tLv.files = [tFile1, tFile2] ∧ tFile1.primary = false ∧ tFile2.primary = true := by
  refine ⟨by decide, by decide, by decide, by decide, by decide, by decide⟩

/-- C8 amended: when the checker finds a strictly newer candidate, the
report's `updateSize` equals the size of the FIRST file in the candidate's
file list (0 when the list is empty or the size is absent), regardless of
which file is marked primary. -/
theorem updateSize_firstFile_amended (mod : ModItem) (lv : CatalogVersion)
    (h : compareVersions mod.currentVersion lv.version_number < 0) :
    (checkOne mod (Except.ok (some lv))).updateSize = some (firstFileSize lv.files) := by
  simp [checkOne, h]

theorem updateSize_firstFile_amended_witness :
    (checkOne tMod (Except.ok (some tLv))).updateSize = some 10 := by
  have h := updateSize_firstFile_amended tMod tLv (by decide)
  simpa using h
